import Mathlib

/-!
Verification of the samo-challenge video backend (Flask application in `app.py`).

We shallowly embed the route handlers that the specification describes:
the range streamer (`stream_video` and its inner `generate` chunk loop),
the background sweep (`cleanup_old_files`, one iteration of its loop body),
the upload handler (`upload_video`), the analysis route (`analyze_video`),
the session cleanup pair (`cleanup_session_files`, `list_downloads`) and the
download orchestrator (`download_video`).

File contents are modelled as `List Nat` (one element per byte); the
filesystem, the Flask session and the process-wide `session_files` dict are
passed explicitly as values.  Python integers are modelled as `Int` where the
source can produce negative values (for example `byte_end = file_size - 1`
on an empty file) and as `Nat` where the source guarantees non-negativity.
Strings manipulated by substring tests are modelled as `List Char`, matching
Python string slicing and the `in` operator (substring containment).
-/

/-! ## Range streamer (`app.py`, `stream_video`, lines 642-696)

The inner `generate` closure seeks to `byte_start` and repeatedly reads
`min(8192, remaining)` bytes until `remaining` is exhausted or a read
returns no data (end of file).  A Python `f.read(k)` at position `pos`
returns the next `min(k, size - pos)` bytes and advances the position by
the number of bytes actually returned; we model it by
`(file.drop pos).take k`. -/

/-- One run of the `generate` chunk loop of `stream_video`: starting at
file offset `pos` with `remaining` bytes still owed, produce the list of
emitted chunks.  `remaining` is an `Int` because `content_length` can be
zero or negative in the source. -/
def generate (file : List Nat) (pos : Nat) (remaining : Int) : List (List Nat) :=
  if h : 0 < remaining then
    let chunkSize : Int := min 8192 remaining
    let data := (file.drop pos).take chunkSize.toNat
    if hd : data = [] then []
    else data :: generate file (pos + data.length) (remaining - data.length)
  else []
termination_by remaining.toNat
decreasing_by
  have hk : 0 < (List.take ((8192 ⊓ remaining).toNat) (List.drop pos file)).length :=
    List.length_pos.mpr hd
  omega

/-- The HTTP response assembled by `stream_video`: status code, the three
numbers interpolated into the `Content-Range` header
(`bytes {rangeStart}-{rangeEnd}/{rangeTotal}`), the `Content-Length`
header value and the chunked body. -/
structure StreamResponse where
  status : Nat
  rangeStart : Nat
  rangeEnd : Int
  rangeTotal : Nat
  contentLength : Int
  body : List (List Nat)
deriving DecidableEq, Repr

/-- The `byte_end` computed by `stream_video`: the parsed upper bound when
the range header carried one, else `file_size - 1` (an `Int`, so `-1` for
an empty file). -/
def streamByteEnd (file : List Nat) (upper : Option Nat) : Int :=
  match upper with
  | some e => (e : Int)
  | none => (file.length : Int) - 1

/-- `stream_video` on an existing stored file.  `rng` is the result of the
range-header regex `bytes=(\d+)-(\d*)`: `none` when the header is absent
or does not match (both bounds default), `some (s, upper)` when it matched
with start `s` and optional end `upper`.  The 404 branch for a missing
file is before this slice and is not modelled. -/
def stream_video (file : List Nat) (rng : Option (Nat × Option Nat)) : StreamResponse :=
  let file_size := file.length
  let byte_start : Nat :=
    match rng with
    | none => 0
    | some (s, _) => s
  let byte_end : Int := streamByteEnd file (rng.bind Prod.snd)
  let content_length : Int := byte_end - byte_start + 1
  { status := 206
    rangeStart := byte_start
    rangeEnd := byte_end
    rangeTotal := file_size
    contentLength := content_length
    body := generate file byte_start content_length }

/-- Unfolding equation of `generate` when `remaining` is positive. -/
theorem generate_pos (file : List Nat) (pos : Nat) (remaining : Int)
    (h : 0 < remaining) :
    generate file pos remaining =
      if (file.drop pos).take (min 8192 remaining).toNat = [] then []
      else ((file.drop pos).take (min 8192 remaining).toNat) ::
        generate file
          (pos + ((file.drop pos).take (min 8192 remaining).toNat).length)
          (remaining - ((file.drop pos).take (min 8192 remaining).toNat).length) := by
  rw [generate]
  simp only [h, dite_true, dite_eq_ite, if_true]

/-- Unfolding equation of `generate` when `remaining` is not positive:
the loop body never runs. -/
theorem generate_nonpos (file : List Nat) (pos : Nat) (remaining : Int)
    (h : ¬ 0 < remaining) :
    generate file pos remaining = [] := by
  rw [generate]
  simp only [h, dite_false]

/-- Concatenating the chunks of `generate` gives exactly the next
`remaining.toNat` bytes of the file from offset `pos` (all remaining bytes
when the file is shorter: a short read ends the loop early). -/
theorem generate_flatten (file : List Nat) (pos : Nat) (remaining : Int) :
    (generate file pos remaining).flatten = (file.drop pos).take remaining.toNat := by
  by_cases h : 0 < remaining
  · rw [generate_pos file pos remaining h]
    by_cases hd : (file.drop pos).take (min 8192 remaining).toNat = []
    · rw [if_pos hd, List.flatten_nil]
      have hc : 0 < (min (8192 : Int) remaining).toNat := by omega
      have hnil : file.drop pos = [] := by
        rcases List.take_eq_nil_iff.mp hd with h0 | h0
        · omega
        · exact h0
      rw [hnil, List.take_nil]
    · rw [if_neg hd, List.flatten_cons,
        generate_flatten file
          (pos + ((file.drop pos).take (min 8192 remaining).toNat).length)
          (remaining - ((file.drop pos).take (min 8192 remaining).toNat).length)]
      have hdle : ((file.drop pos).take (min 8192 remaining).toNat).length ≤
          remaining.toNat := by
        have := List.length_take_le (min (8192 : Int) remaining).toNat (file.drop pos)
        omega
      rw [← List.drop_drop]
      have htn : (remaining - ((file.drop pos).take (min 8192 remaining).toNat).length).toNat
          = remaining.toNat - ((file.drop pos).take (min 8192 remaining).toNat).length := by
        omega
      rw [htn]
      have hsplit : (file.drop pos).take remaining.toNat =
          (file.drop pos).take ((file.drop pos).take (min 8192 remaining).toNat).length ++
            ((file.drop pos).drop
                ((file.drop pos).take (min 8192 remaining).toNat).length).take
              (remaining.toNat -
                ((file.drop pos).take (min 8192 remaining).toNat).length) := by
        rw [← List.take_add]
        congr 1
        omega
      rw [hsplit]
      congr 1
      rw [List.take_eq_take]
      simp only [List.length_take]
      omega
  · rw [generate_nonpos file pos remaining h]
    have h0 : remaining.toNat = 0 := by omega
    rw [h0, List.take_zero, List.flatten_nil]
termination_by remaining.toNat
decreasing_by
  have hk : 0 < ((file.drop pos).take (min (8192 : Int) remaining).toNat).length :=
    List.length_pos.mpr hd
  omega

/-- Every chunk emitted by `generate` is non-empty and at most 8192 bytes. -/
theorem generate_chunk_bound (file : List Nat) (pos : Nat) (remaining : Int) :
    ∀ c ∈ generate file pos remaining, c ≠ [] ∧ c.length ≤ 8192 := by
  intro c hc
  by_cases h : 0 < remaining
  · rw [generate_pos file pos remaining h] at hc
    by_cases hd : (file.drop pos).take (min 8192 remaining).toNat = []
    · rw [if_pos hd] at hc
      exact absurd hc (List.not_mem_nil c)
    · rw [if_neg hd, List.mem_cons] at hc
      rcases hc with hc | hc
      · subst hc
        refine ⟨hd, ?_⟩
        have := List.length_take_le (min (8192 : Int) remaining).toNat (file.drop pos)
        omega
      · exact generate_chunk_bound file
          (pos + ((file.drop pos).take (min 8192 remaining).toNat).length)
          (remaining - ((file.drop pos).take (min 8192 remaining).toNat).length) c hc
  · rw [generate_nonpos file pos remaining h] at hc
    exact absurd hc (List.not_mem_nil c)
termination_by remaining.toNat
decreasing_by
  have hk : 0 < ((file.drop pos).take (min (8192 : Int) remaining).toNat).length :=
    List.length_pos.mpr hd
  omega

/-- C1: for every stored file and valid byte range `[start, end]` with
`0 ≤ start ≤ end ≤ fileSize - 1`, the streamed body is exactly
`end - start + 1` bytes, equal to the file bytes at offsets
`start..end`, emitted as a finite sequence of chunks of at most 8192
bytes each, read sequentially from offset `start`. -/
theorem stream_valid_range_exact (file : List Nat) (s e : Nat)
    (hse : s ≤ e) (hef : e < file.length) :
    (stream_video file (some (s, some e))).body.flatten =
        (file.drop s).take (e - s + 1)
    ∧ (stream_video file (some (s, some e))).body.flatten.length = e - s + 1
    ∧ ∀ c ∈ (stream_video file (some (s, some e))).body, c.length ≤ 8192 := by
  have hbody : (stream_video file (some (s, some e))).body =
      generate file s ((e : Int) - (s : Int) + 1) := rfl
  have htn : ((e : Int) - (s : Int) + 1).toNat = e - s + 1 := by omega
  refine ⟨?_, ?_, ?_⟩
  · rw [hbody, generate_flatten, htn]
  · rw [hbody, generate_flatten, htn, List.length_take, List.length_drop]
    omega
  · intro c hc
    rw [hbody] at hc
    exact (generate_chunk_bound file s ((e : Int) - (s : Int) + 1) c hc).2

/-- Witness for C1 on the file `[10, 20, 30, 40]` with range `bytes=1-2`. -/
theorem stream_valid_range_exact_witness :
    (stream_video [10, 20, 30, 40] (some (1, some 2))).body.flatten =
        ([10, 20, 30, 40].drop 1).take (2 - 1 + 1)
    ∧ (stream_video [10, 20, 30, 40] (some (1, some 2))).body.flatten.length
        = 2 - 1 + 1
    ∧ ∀ c ∈ (stream_video [10, 20, 30, 40] (some (1, some 2))).body,
        c.length ≤ 8192 :=
  stream_valid_range_exact [10, 20, 30, 40] 1 2 (by decide) (by decide)

/-- C2: every `/stream` request on an existing file is answered with
status 206, and with no range header the defaults are `start = 0` and
`end = fileSize - 1`, so the whole file is streamed with
`Content-Length = fileSize` and `Content-Range` announcing
`bytes 0-(fileSize-1)/fileSize`. -/
theorem stream_always_206_and_whole_file_default (file : List Nat) :
    (∀ rng, (stream_video file rng).status = 206)
    ∧ (stream_video file none).rangeStart = 0
    ∧ (stream_video file none).rangeEnd = (file.length : Int) - 1
    ∧ (stream_video file none).rangeTotal = file.length
    ∧ (stream_video file none).contentLength = (file.length : Int)
    ∧ (stream_video file none).body.flatten = file := by
  refine ⟨fun rng => rfl, rfl, rfl, rfl, ?_, ?_⟩
  · show (file.length : Int) - 1 - (0 : Nat) + 1 = (file.length : Int)
    omega
  · have hbody : (stream_video file none).body =
        generate file 0 ((file.length : Int) - 1 - (0 : Nat) + 1) := rfl
    rw [hbody, generate_flatten, List.drop_zero]
    have htn : ((file.length : Int) - 1 - (0 : Nat) + 1).toNat = file.length := by
      omega
    rw [htn, List.take_length]

/-- C10: when the parsed range has `byte_start > byte_end` (for example a
start beyond the end of file with no upper bound supplied), the handler
does not fail: the loop guard `remaining > 0` is false at once so the body
is empty, the status is still 206 and the `Content-Length` header is
`byte_end - byte_start + 1`, which is zero or negative. -/
theorem stream_inverted_range_safe (file : List Nat) (s : Nat)
    (upper : Option Nat) (h : streamByteEnd file upper < (s : Int)) :
    (stream_video file (some (s, upper))).body = []
    ∧ (stream_video file (some (s, upper))).status = 206
    ∧ (stream_video file (some (s, upper))).contentLength =
        streamByteEnd file upper - (s : Int) + 1
    ∧ (stream_video file (some (s, upper))).contentLength ≤ 0 := by
  have hbody : (stream_video file (some (s, upper))).body =
      generate file s (streamByteEnd file upper - (s : Int) + 1) := rfl
  refine ⟨?_, rfl, rfl, ?_⟩
  · rw [hbody, generate_nonpos]
    omega
  · show streamByteEnd file upper - (s : Int) + 1 ≤ 0
    omega

/-- Witness for C10 on the three-byte file `[7, 8, 9]` with range
`bytes=5-` (start 5 past the end of file, no upper bound). -/
theorem stream_inverted_range_safe_witness :
    (stream_video [7, 8, 9] (some (5, none))).body = []
    ∧ (stream_video [7, 8, 9] (some (5, none))).status = 206
    ∧ (stream_video [7, 8, 9] (some (5, none))).contentLength =
        streamByteEnd [7, 8, 9] none - (5 : Int) + 1
    ∧ (stream_video [7, 8, 9] (some (5, none))).contentLength ≤ 0 :=
  stream_inverted_range_safe [7, 8, 9] 5 none (by decide)

/-! ## Background sweep (`app.py`, `cleanup_old_files`, lines 166-182)

The sweep thread loops forever; each iteration walks the downloads
directory, and for every regular file whose age `current_time - mtime`
exceeds 1800 seconds attempts `unlink`, swallowing per-file failures
(`try ... except: pass`) and continuing with the remaining files.  We
model one iteration of the loop body; the filesystem entry carries an
`unlinkOk` flag standing for whether the `unlink` call would succeed. -/

/-- One directory entry seen by the sweep: its name, its `st_mtime`,
whether it is a regular file (`is_file()`), and whether `unlink` on it
succeeds (the `try` body) or raises (the swallowed `except` branch). -/
structure SweepFile where
  name : String
  mtime : Int
  isRegular : Bool
  unlinkOk : Bool
deriving DecidableEq, Repr

/-- One iteration of the `cleanup_old_files` loop body at time
`current_time`: returns the entries actually deleted, processing every
entry in order even when an `unlink` fails earlier in the walk. -/
def cleanup_old_files (current_time : Int) : List SweepFile → List SweepFile
  | [] => []
  | f :: rest =>
    if f.isRegular ∧ current_time - f.mtime > 1800 ∧ f.unlinkOk
    then f :: cleanup_old_files current_time rest
    else cleanup_old_files current_time rest

/-- The sweep deletes exactly the regular files older than 1800 seconds
whose `unlink` succeeds. -/
theorem cleanup_old_files_eq_filter (current_time : Int) (files : List SweepFile) :
    cleanup_old_files current_time files =
      files.filter (fun f =>
        f.isRegular ∧ current_time - f.mtime > 1800 ∧ f.unlinkOk) := by
  induction files with
  | nil => rfl
  | cons f rest ih =>
    rw [cleanup_old_files, List.filter_cons]
    by_cases h : f.isRegular ∧ current_time - f.mtime > 1800 ∧ f.unlinkOk
    · rw [if_pos h, ih, if_pos (by exact decide_eq_true h)]
    · rw [if_neg h, ih, if_neg (by simpa using h)]

/-- C3: in one iteration of the sweep loop, every regular file older than
1800 seconds (whose deletion does not fail) is deleted, no file aged at
most 1800 seconds is ever deleted, and a deletion failure never aborts
the rest of the sweep (the iteration treats the directory pointwise, so
the files after a failing entry are handled exactly as if the failing
entry were absent). -/
theorem sweep_deletes_only_old (current_time : Int) (files : List SweepFile) :
    (∀ f ∈ files, f.isRegular = true → current_time - f.mtime > 1800 →
        f.unlinkOk = true → f ∈ cleanup_old_files current_time files)
    ∧ (∀ f ∈ files, current_time - f.mtime ≤ 1800 →
        f ∉ cleanup_old_files current_time files)
    ∧ (∀ before after : List SweepFile,
        cleanup_old_files current_time (before ++ after) =
          cleanup_old_files current_time before ++
            cleanup_old_files current_time after) := by
  refine ⟨?_, ?_, ?_⟩
  · intro f hf hreg hold hok
    rw [cleanup_old_files_eq_filter]
    exact List.mem_filter.mpr ⟨hf, by simp [hreg, hold, hok]⟩
  · intro f hf hyoung hmem
    rw [cleanup_old_files_eq_filter] at hmem
    have := (List.mem_filter.mp hmem).2
    simp only [decide_eq_true_eq] at this
    omega
  · intro before after
    rw [cleanup_old_files_eq_filter, cleanup_old_files_eq_filter,
      cleanup_old_files_eq_filter, List.filter_append]

/-- Witness for C3 at time 10000 on a directory holding an old deletable
file, an old file whose deletion fails, a fresh file and a directory
entry: the old deletable file is deleted and the fresh file survives. -/
theorem sweep_deletes_only_old_witness :
    (SweepFile.mk "old.mp4" 100 true true ∈
        cleanup_old_files 10000
          [SweepFile.mk "bad.mp4" 50 true false,
           SweepFile.mk "old.mp4" 100 true true,
           SweepFile.mk "fresh.mp4" 9000 true true])
    ∧ (SweepFile.mk "fresh.mp4" 9000 true true ∉
        cleanup_old_files 10000
          [SweepFile.mk "bad.mp4" 50 true false,
           SweepFile.mk "old.mp4" 100 true true,
           SweepFile.mk "fresh.mp4" 9000 true true]) := by
  refine ⟨?_, ?_⟩
  · exact (sweep_deletes_only_old 10000
      [SweepFile.mk "bad.mp4" 50 true false,
       SweepFile.mk "old.mp4" 100 true true,
       SweepFile.mk "fresh.mp4" 9000 true true]).1
      (SweepFile.mk "old.mp4" 100 true true) (by decide) (by decide)
      (by decide) (by decide)
  · exact (sweep_deletes_only_old 10000
      [SweepFile.mk "bad.mp4" 50 true false,
       SweepFile.mk "old.mp4" 100 true true,
       SweepFile.mk "fresh.mp4" 9000 true true]).2.1
      (SweepFile.mk "fresh.mp4" 9000 true true) (by decide) (by decide)

/-! ## Session registry helpers

`session_files` is a process-wide Python dict from session id to the list
of filenames the session owns.  We model it as an association list in
which an update prepends the key (lookup finds the newest binding, which
matches dict assignment observably); `session.pop` removes every binding
of the key. -/

/-- The process-wide `session_files` dict: session id to owned filenames. -/
abbrev SessionMap := List (String × List String)

/-- The ownership-recording idiom of `upload_video` and `download_video`:
`if session_id not in session_files: session_files[session_id] = []`
followed by `session_files[session_id].append(filename)`. -/
def recordOwnership (m : SessionMap) (sid filename : String) : SessionMap :=
  match m.lookup sid with
  | none => (sid, [filename]) :: m
  | some owned => (sid, owned ++ [filename]) :: m

/-! ## Upload handler (`app.py`, `upload_video`, lines 234-320)

The handler validates the extension, saves the uploaded bytes, then
checks `file_path.stat().st_size / (1024 * 1024) > 500`; over the limit
it unlinks the partial file and returns the 400 error before the session
ownership block runs.  Since `1024 * 1024` is a power of two, the float
division is exact for any realistic size, so the comparison is exactly
`sizeBytes > 500 * 1024 * 1024`.  The extension/empty-filename
validations happen before the slice modelled here and do not touch the
store or the session map. -/

/-- The JSON reply of `upload_video`: HTTP status, the error string of a
failure, and the stored filename on success. -/
structure UploadResponse where
  status : Nat
  error : Option String
  filename : Option String
deriving DecidableEq, Repr

/-- `upload_video` from the `video_file.save` call on: saves the file,
applies the 500 MB cap (deleting the file when over it), and otherwise
records session ownership.  Returns the reply, the new store contents and
the new `session_files` map. -/
def upload_video (store : List String) (sessions : SessionMap) (sid : String)
    (filename : String) (sizeBytes : Nat) :
    UploadResponse × List String × SessionMap :=
  let store1 := filename :: store
  if sizeBytes > 500 * 1024 * 1024 then
    ({ status := 400
       error := some "File size exceeds 500MB limit"
       filename := none },
     store1.erase filename, sessions)
  else
    ({ status := 200, error := none, filename := some filename },
     store1, recordOwnership sessions sid filename)

/-- C4: an upload whose persisted size exceeds 500 MB fails with status
400 and the error message naming the 500MB limit, the partial file is
deleted before the error returns (the store is exactly as before the
upload), and no session ownership is recorded. -/
theorem upload_over_limit_rejected (store : List String) (sessions : SessionMap)
    (sid filename : String) (sizeBytes : Nat)
    (h : sizeBytes > 500 * 1024 * 1024) :
    (upload_video store sessions sid filename sizeBytes).1.status = 400
    ∧ (upload_video store sessions sid filename sizeBytes).1.error =
        some "File size exceeds 500MB limit"
    ∧ (upload_video store sessions sid filename sizeBytes).2.1 = store
    ∧ (upload_video store sessions sid filename sizeBytes).2.2 = sessions := by
  unfold upload_video
  rw [if_pos h]
  exact ⟨rfl, rfl, List.erase_cons_head filename store, rfl⟩

/-- Witness for C4: a 600 MB upload is rejected and leaves the store and
the session map unchanged. -/
theorem upload_over_limit_rejected_witness :
    (upload_video ["keep.mp4"] [("s1", ["keep.mp4"])] "s1" "big.mp4"
        (600 * 1024 * 1024)).1.status = 400
    ∧ (upload_video ["keep.mp4"] [("s1", ["keep.mp4"])] "s1" "big.mp4"
        (600 * 1024 * 1024)).1.error = some "File size exceeds 500MB limit"
    ∧ (upload_video ["keep.mp4"] [("s1", ["keep.mp4"])] "s1" "big.mp4"
        (600 * 1024 * 1024)).2.1 = ["keep.mp4"]
    ∧ (upload_video ["keep.mp4"] [("s1", ["keep.mp4"])] "s1" "big.mp4"
        (600 * 1024 * 1024)).2.2 = [("s1", ["keep.mp4"])] :=
  upload_over_limit_rejected ["keep.mp4"] [("s1", ["keep.mp4"])] "s1" "big.mp4"
    (600 * 1024 * 1024) (by norm_num)

/-! ## Session cleanup (`app.py`, `cleanup_session_files` lines 698-716 and
`list_downloads` lines 718-734)

`cleanup_session_files` iterates over the calling session's owned
filenames, unlinks each one that exists, then pops the session's entry
from `session_files`.  `list_downloads` returns the owned filenames that
still exist on disk (the route decorates each with size and modification
time and sorts descending by name; that decoration cannot affect
emptiness or membership and is elided here).  The argument `sid` is
`none` when the request carries no session cookie. -/

/-- `cleanup_session_files`: deletes the files owned by the session and
drops the session's `session_files` entry.  Returns the new store and the
new session map. -/
def cleanup_session_files (store : List String) (sessions : SessionMap)
    (sid : Option String) : List String × SessionMap :=
  match sid with
  | none => (store, sessions)
  | some sid =>
    match sessions.lookup sid with
    | none => (store, sessions)
    | some owned =>
      (store.filter (fun f => decide (f ∉ owned)),
       sessions.filter (fun p => decide (p.1 ≠ sid)))

/-- `list_downloads`: the owned filenames of the calling session that
still exist in the store. -/
def list_downloads (store : List String) (sessions : SessionMap)
    (sid : Option String) : List String :=
  match sid with
  | none => []
  | some sid =>
    match sessions.lookup sid with
    | none => []
    | some owned => owned.filter (fun f => decide (f ∈ store))

/-- Popping a key from the session map removes its binding. -/
theorem lookup_filterOut_self (m : SessionMap) (sid : String) :
    (m.filter (fun p => decide (p.1 ≠ sid))).lookup sid = none := by
  induction m with
  | nil => rfl
  | cons p rest ih =>
    obtain ⟨k, v⟩ := p
    rw [List.filter_cons]
    by_cases h : k = sid
    · subst h
      simp only [ne_eq, not_true_eq_false, decide_False, Bool.false_eq_true,
        if_false]
      exact ih
    · simp only [ne_eq, h, not_false_eq_true, decide_True, if_true]
      rw [List.lookup_cons]
      have hbeq : (sid == k) = false := beq_eq_false_iff_ne.mpr (Ne.symm h)
      rw [hbeq]
      exact ih

/-- Popping a key from the session map leaves every other binding
untouched. -/
theorem lookup_filterOut_other (m : SessionMap) (sid sid2 : String)
    (h : sid2 ≠ sid) :
    (m.filter (fun p => decide (p.1 ≠ sid))).lookup sid2 = m.lookup sid2 := by
  induction m with
  | nil => rfl
  | cons p rest ih =>
    obtain ⟨k, v⟩ := p
    rw [List.filter_cons]
    by_cases hp : k = sid
    · subst hp
      simp only [ne_eq, not_true_eq_false, decide_False, Bool.false_eq_true,
        if_false]
      rw [ih, List.lookup_cons]
      have hbeq : (sid2 == k) = false := beq_eq_false_iff_ne.mpr h
      rw [hbeq]
    · simp only [ne_eq, hp, not_false_eq_true, decide_True, if_true]
      rw [List.lookup_cons, List.lookup_cons]
      cases hbeq : (sid2 == k) with
      | true => rfl
      | false => exact ih

/-- C7: `/cleanup` deletes from the store exactly the files recorded as
owned by the calling session (a file not in that list survives, even if
other sessions own it), clears the calling session's ownership record, a
subsequent `/list-downloads` for that session returns the empty list, and
every other session's ownership record is unchanged. -/
theorem cleanup_deletes_exactly_owned (store : List String)
    (sessions : SessionMap) (sid : String) :
    (∀ f, f ∈ (cleanup_session_files store sessions (some sid)).1 ↔
        f ∈ store ∧ f ∉ (sessions.lookup sid).getD [])
    ∧ (cleanup_session_files store sessions (some sid)).2.lookup sid = none
    ∧ list_downloads (cleanup_session_files store sessions (some sid)).1
        (cleanup_session_files store sessions (some sid)).2 (some sid) = []
    ∧ ∀ sid2, sid2 ≠ sid →
        (cleanup_session_files store sessions (some sid)).2.lookup sid2 =
          sessions.lookup sid2 := by
  cases hl : sessions.lookup sid with
  | none =>
    refine ⟨?_, ?_, ?_, ?_⟩
    · intro f
      simp [cleanup_session_files, hl]
    · simp [cleanup_session_files, hl]
    · simp [cleanup_session_files, list_downloads, hl]
    · intro sid2 _
      simp [cleanup_session_files, hl]
  | some owned =>
    simp only [cleanup_session_files, hl]
    refine ⟨?_, ?_, ?_, ?_⟩
    · intro f
      simp [List.mem_filter]
    · exact lookup_filterOut_self sessions sid
    · simp only [list_downloads, lookup_filterOut_self sessions sid]
    · intro sid2 h2
      exact lookup_filterOut_other sessions sid sid2 h2

/-- Witness for C7: session `s1` owns `a.mp4`, session `s2` owns `b.mp4`;
after `s1` calls cleanup, `b.mp4` is still in the store and the record of
`s2` is untouched. -/
theorem cleanup_deletes_exactly_owned_witness :
    ("b.mp4" ∈ (cleanup_session_files ["a.mp4", "b.mp4"]
        [("s1", ["a.mp4"]), ("s2", ["b.mp4"])] (some "s1")).1)
    ∧ (cleanup_session_files ["a.mp4", "b.mp4"]
        [("s1", ["a.mp4"]), ("s2", ["b.mp4"])] (some "s1")).2.lookup "s2" =
      ([("s1", ["a.mp4"]), ("s2", ["b.mp4"])] : SessionMap).lookup "s2" :=
  ⟨((cleanup_deletes_exactly_owned ["a.mp4", "b.mp4"]
      [("s1", ["a.mp4"]), ("s2", ["b.mp4"])] "s1").1 "b.mp4").mpr
      ⟨by decide, by decide⟩,
   (cleanup_deletes_exactly_owned ["a.mp4", "b.mp4"]
      [("s1", ["a.mp4"]), ("s2", ["b.mp4"])] "s1").2.2.2 "s2" (by decide)⟩

/-! ## Analysis route (`app.py`, `analyze_video`, lines 736-823)

The route checks the per-session analysis cache under the string key
`f"{filename}_{mode}"`; a hit returns the stored result with
`cached: true` and stops.  On a miss it prefers a cached YouTube
transcript: mode `"transcript"` wraps that transcript verbatim into a
success object without calling the analyzer at all, every other mode
calls `video_analyzer.analyze_with_transcript`; without a transcript it
calls `video_analyzer.analyze_video` on the file.  Whatever object the
analyzer returns (the analyzer returns a `status: failed` object instead
of raising when the backend is unconfigured or errors) is stored in the
cache before the response is built.  The analyzer itself is an external
collaborator, modelled as an uninterpreted pair of functions. -/

/-- An analyzer result object as handed back by the AI backend: its
`status` field (`success` or `failed`) and the rest of the payload,
abstracted to a string. -/
structure BackendResult where
  status : String
  payload : String
deriving DecidableEq, Repr

/-- A value stored in the `video_analysis` session cache: the verbatim
transcript wrapper `{'transcript': t, 'source': 'youtube',
'status': 'success'}` built for mode `"transcript"`, an
`analyze_with_transcript` result (tagged `youtube_source: true` by the
route), or an `analyze_video` result. -/
inductive AnalysisResult where
  | transcriptVerbatim (transcript : String)
  | fromTranscript (r : BackendResult)
  | fromVideo (r : BackendResult)
deriving DecidableEq, Repr

/-- The AI analyzer, as seen from the route: uninterpreted functions from
(transcript, mode, custom prompt) and (path, mode, custom prompt) to a
result object. -/
structure Backend where
  analyzeWithTranscript : String → String → Option String → BackendResult
  analyzeVideo : String → String → Option String → BackendResult

/-- The per-session state touched by `analyze_video`: the
`video_analysis` cache (keyed by the concatenated string
`filename + "_" + mode`), the `video_transcriptions` cache keyed by
filename, and the singular `video_transcript` slot set by a fresh
video-based transcript analysis. -/
structure SessionState where
  video_analysis : List (String × AnalysisResult)
  video_transcriptions : List (String × String)
  video_transcript : Option AnalysisResult
deriving DecidableEq, Repr

/-- Which analyzer entry point a request ended up invoking. -/
inductive BackendCall where
  | noCall
  | transcriptCall (transcript mode : String) (customPrompt : Option String)
  | videoCall (path mode : String) (customPrompt : Option String)
deriving DecidableEq, Repr

/-- The JSON reply of `analyze_video`: HTTP status, `success` flag, the
`result` object, the `cached` flag and the optional top-level `source`
marker (`youtube_transcript` on a fresh transcript-based analysis). -/
structure AnalyzeResponse where
  status : Nat
  success : Bool
  result : Option AnalysisResult
  cached : Option Bool
  source : Option String
deriving DecidableEq, Repr

/-- `analyze_video`: full route logic after the missing-filename check.
`fileExists` is whether `DOWNLOADS_DIR / filename` exists (the 404
branch).  Returns the reply, the new session state and the analyzer
entry point that was invoked. -/
def analyze_video (b : Backend) (st : SessionState) (fileExists : Bool)
    (filename mode : String) (customPrompt : Option String) :
    AnalyzeResponse × SessionState × BackendCall :=
  if !fileExists then
    ({ status := 404, success := false, result := none, cached := none,
       source := none }, st, .noCall)
  else
    let cacheKey := filename ++ "_" ++ mode
    match st.video_analysis.lookup cacheKey with
    | some r =>
      ({ status := 200, success := true, result := some r,
         cached := some true, source := none }, st, .noCall)
    | none =>
      match st.video_transcriptions.lookup filename with
      | some t =>
        if mode = "transcript" then
          let r : AnalysisResult := .transcriptVerbatim t
          ({ status := 200, success := true, result := some r,
             cached := some false, source := some "youtube_transcript" },
           { st with video_analysis := (cacheKey, r) :: st.video_analysis },
           .noCall)
        else
          let r : AnalysisResult :=
            .fromTranscript (b.analyzeWithTranscript t mode customPrompt)
          ({ status := 200, success := true, result := some r,
             cached := some false, source := some "youtube_transcript" },
           { st with video_analysis := (cacheKey, r) :: st.video_analysis },
           .transcriptCall t mode customPrompt)
      | none =>
        let r : AnalysisResult :=
          .fromVideo (b.analyzeVideo filename mode customPrompt)
        ({ status := 200, success := true, result := some r,
           cached := some false, source := none },
         { st with
            video_analysis := (cacheKey, r) :: st.video_analysis
            video_transcript :=
              if mode = "transcript" then some r else st.video_transcript },
         .videoCall filename mode customPrompt)

/-- C5: a second `analyze` call with the same `(filename, mode)` pair (and
hence the same `f"{filename}_{mode}"` cache key) returns the identical
result payload with `cached = true` and invokes no analyzer entry point;
moreover, after any successful call the cache holds exactly the returned
result under that key — including results whose `status` is `failed`,
since the stored `BackendResult` is universally quantified and written
back unconditionally before the response is built. -/
theorem analyze_cache_idempotent (b : Backend) (st : SessionState)
    (filename mode : String) (customPrompt : Option String) :
    (analyze_video b st true filename mode customPrompt).2.1.video_analysis.lookup
        (filename ++ "_" ++ mode) =
      (analyze_video b st true filename mode customPrompt).1.result
    ∧ (analyze_video b (analyze_video b st true filename mode customPrompt).2.1
        true filename mode customPrompt).1.result =
      (analyze_video b st true filename mode customPrompt).1.result
    ∧ (analyze_video b (analyze_video b st true filename mode customPrompt).2.1
        true filename mode customPrompt).1.cached = some true
    ∧ (analyze_video b (analyze_video b st true filename mode customPrompt).2.1
        true filename mode customPrompt).2.2 = BackendCall.noCall := by
  cases hl : st.video_analysis.lookup (filename ++ "_" ++ mode) with
  | some r =>
    simp [analyze_video, hl]
  | none =>
    cases hl2 : st.video_transcriptions.lookup filename with
    | some t =>
      by_cases hm : mode = "transcript"
      · subst hm
        simp [analyze_video, hl, hl2]
      · simp [analyze_video, hl, hl2, hm]
    | none =>
      simp [analyze_video, hl, hl2]

/-- C6: when the session holds a cached transcript for the filename, the
analysis never takes the full-video path for any mode; on a cache miss,
mode `"transcript"` returns the cached transcript verbatim (wrapped into
a success object) without invoking any analyzer entry point, and every
other mode invokes transcript-based analysis on the cached transcript. -/
theorem analyze_prefers_transcript (b : Backend) (st : SessionState)
    (filename mode : String) (customPrompt : Option String) (t : String)
    (ht : st.video_transcriptions.lookup filename = some t) :
    (∀ p m c, (analyze_video b st true filename mode customPrompt).2.2 ≠
        BackendCall.videoCall p m c)
    ∧ (st.video_analysis.lookup (filename ++ "_" ++ mode) = none →
        (mode = "transcript" →
          (analyze_video b st true filename mode customPrompt).2.2 =
              BackendCall.noCall
          ∧ (analyze_video b st true filename mode customPrompt).1.result =
              some (AnalysisResult.transcriptVerbatim t))
        ∧ (mode ≠ "transcript" →
          (analyze_video b st true filename mode customPrompt).2.2 =
              BackendCall.transcriptCall t mode customPrompt)) := by
  cases hl : st.video_analysis.lookup (filename ++ "_" ++ mode) with
  | some r =>
    refine ⟨?_, ?_⟩
    · intro p m c
      simp [analyze_video, hl]
    · intro hnone
      exact absurd hnone (by simp)
  | none =>
    by_cases hm : mode = "transcript"
    · subst hm
      refine ⟨?_, fun _ => ⟨fun _ => ?_, fun hne => absurd rfl hne⟩⟩
      · intro p m c
        simp [analyze_video, hl, ht]
      · constructor <;> simp [analyze_video, hl, ht]
    · refine ⟨?_, fun _ => ⟨fun heq => absurd heq hm, fun _ => ?_⟩⟩
      · intro p m c
        simp [analyze_video, hl, ht, hm]
      · simp [analyze_video, hl, ht, hm]

/-- A concrete analyzer used only to instantiate witnesses. -/
def demoBackend : Backend where
  analyzeWithTranscript := fun t mode _ => { status := "success", payload := t ++ mode }
  analyzeVideo := fun path mode _ => { status := "success", payload := path ++ mode }

/-- A concrete session state holding a cached transcript for `v.mp4`. -/
def demoState : SessionState where
  video_analysis := []
  video_transcriptions := [("v.mp4", "hello")]
  video_transcript := none

/-- Witness for C6: with a cached transcript `hello` for `v.mp4`, mode
`summary` invokes transcript-based analysis and mode `transcript` returns
the transcript without any analyzer call. -/
theorem analyze_prefers_transcript_witness :
    (analyze_video demoBackend demoState true "v.mp4" "summary" none).2.2 =
      BackendCall.transcriptCall "hello" "summary" none
    ∧ (analyze_video demoBackend demoState true "v.mp4" "transcript" none).2.2 =
      BackendCall.noCall :=
  ⟨((analyze_prefers_transcript demoBackend demoState "v.mp4" "summary" none
      "hello" (by decide)).2 (by decide)).2 (by decide),
   (((analyze_prefers_transcript demoBackend demoState "v.mp4" "transcript" none
      "hello" (by decide)).2 (by decide)).1 (by decide)).1⟩

/-! ## Download orchestrator (`app.py`, `download_video`, lines 322-597)

The route probes metadata with a 30-second subprocess timeout, runs the
primary `yt-dlp` download with a 300-second timeout, and only when that
subprocess returns a non-zero exit code tries the `pytubefix` fallback.
`subprocess.TimeoutExpired` propagates to the route-level handler at line
594, which answers with the timeout error — the fallback block is never
reached on a timeout.  When both tools fail, the final error text is
`result.stderr[:500]` (or `Erro no download` when stderr is empty) and it
is classified as bot detection when it contains `Sign in to confirm` or,
case-insensitively, `bot`; that classification yields HTTP 429 with
`suggestion`, `technical_error` and `help_link` fields.  Error text is
modelled as `List Char` so that Python slicing (`[:500]`), `str.lower`
and the substring operator `in` have exact counterparts.  Metadata
contents, cookie probing (whose own failures are swallowed by a bare
`except`) and the constructed filename only affect fields that no claim
mentions and are abstracted away; `fileFound` stands for the
file-existence check (including the glob retry) after a zero exit. -/

/-- Python text as a list of characters. -/
abbrev Str := List Char

/-- Outcome of one `subprocess.run` invocation: zero exit, non-zero exit
with captured stderr, or `subprocess.TimeoutExpired`. -/
inductive ProcOutcome where
  | ok
  | fail (stderr : Str)
  | timedOut
deriving DecidableEq

/-- Outcome of the `pytubefix` fallback block: it renamed a downloaded
file into place (setting `returncode` to 0), it ran without raising but
produced no file (no suitable stream, download returned `None`, rename
failed), or it raised an exception (the `except` branch at line 499). -/
inductive FallbackOutcome where
  | producedFile
  | noStream
  | raised
deriving DecidableEq

/-- The JSON reply of `download_video`: HTTP status, `success` flag and
the optional `error`, `suggestion`, `technical_error` and `help_link`
fields. -/
structure DLResponse where
  status : Nat
  success : Bool
  error : Option Str
  suggestion : Option Str
  technical_error : Option Str
  help_link : Option Str
deriving DecidableEq

/-- The final error text of line 581:
`result.stderr[:500] if result.stderr else 'Erro no download'`. -/
def finalErrorMsg (stderr : Str) : Str :=
  if stderr = [] then "Erro no download".toList else stderr.take 500

/-- The bot-detection test applied to an error text:
`'Sign in to confirm' in msg or 'bot' in msg.lower()`. -/
def hasBotSignature (msg : Str) : Bool :=
  decide ("Sign in to confirm".toList <:+: msg) ||
    decide ("bot".toList <:+: msg.map Char.toLower)

/-- The route-level `except subprocess.TimeoutExpired` reply of line 594. -/
def downloadTimeoutResponse : DLResponse :=
  { status := 500, success := false
    error := some "Download demorou muito tempo".toList
    suggestion := none, technical_error := none, help_link := none }

/-- The `returncode == 0` branch of lines 509-579: success when the
output file (or a glob match for it) exists, otherwise the
file-not-found error. -/
def download_success_response (fileFound : Bool) : DLResponse :=
  if fileFound then
    { status := 200, success := true, error := none
      suggestion := none, technical_error := none, help_link := none }
  else
    { status := 500, success := false
      error := some "Arquivo não encontrado após download".toList
      suggestion := none, technical_error := none, help_link := none }

/-- The `else` branch of lines 580-592: truncate the stderr, then answer
429 with remediation fields on a bot-detection signature and a generic
500 otherwise. -/
def classify_download_error (stderr : Str) : DLResponse :=
  let error_msg := finalErrorMsg stderr
  if hasBotSignature error_msg then
    { status := 429, success := false
      error :=
        some "YouTube is requiring authentication. Both yt-dlp and pytubefix were blocked.".toList
      suggestion :=
        some "Please try one of these solutions:\n1. Add a cookies.txt file from your browser\n2. Wait 5-10 minutes and try again\n3. Try a different video\n4. Use a VPN to change your IP address".toList
      technical_error := some error_msg
      help_link := some "https://github.com/yt-dlp/yt-dlp#cookies".toList }
  else
    { status := 500, success := false, error := some error_msg
      suggestion := none, technical_error := none, help_link := none }

/-- `download_video`, from the metadata probe on: returns the reply and
whether the `pytubefix` fallback block was entered. -/
def download_video (probe primary : ProcOutcome) (fb : FallbackOutcome)
    (fileFound : Bool) : DLResponse × Bool :=
  match probe with
  | .timedOut => (downloadTimeoutResponse, false)
  | _ =>
    match primary with
    | .timedOut => (downloadTimeoutResponse, false)
    | .ok => (download_success_response fileFound, false)
    | .fail stderr =>
      let error_msg := if stderr = [] then "Unknown error".toList else stderr
      match fb with
      | .producedFile => (download_success_response fileFound, true)
      | .noStream => (classify_download_error stderr, true)
      | .raised =>
        let stderr2 :=
          if hasBotSignature error_msg then stderr
          else if "Failed to extract".toList <:+: error_msg then
            "Both yt-dlp and pytubefix failed to download. Please try a different video or wait and retry.".toList
          else stderr
        (classify_download_error stderr2, true)

/-- C8: a timeout of the metadata probe or of the primary download is
answered with the user-facing timeout error (HTTP 500,
`Download demorou muito tempo`) and the fallback library is not entered;
and in general the fallback block runs only when the primary tool exited
with a non-zero status. -/
theorem download_timeout_skips_fallback (probe primary : ProcOutcome)
    (fb : FallbackOutcome) (fileFound : Bool)
    (h : probe = ProcOutcome.timedOut ∨ primary = ProcOutcome.timedOut) :
    (download_video probe primary fb fileFound).1 = downloadTimeoutResponse
    ∧ (download_video probe primary fb fileFound).2 = false
    ∧ ∀ (p1 p2 : ProcOutcome) (fb2 : FallbackOutcome) (ff2 : Bool),
        (download_video p1 p2 fb2 ff2).2 = true →
          ∃ s, p2 = ProcOutcome.fail s := by
  have hgate : ∀ (p1 p2 : ProcOutcome) (fb2 : FallbackOutcome) (ff2 : Bool),
      (download_video p1 p2 fb2 ff2).2 = true → ∃ s, p2 = ProcOutcome.fail s := by
    intro p1 p2 fb2 ff2 hrun
    cases p1 <;> cases p2 <;> simp_all [download_video]
  rcases h with h | h
  · subst h
    exact ⟨rfl, rfl, hgate⟩
  · subst h
    cases probe <;> exact ⟨rfl, rfl, hgate⟩

/-- Witness for C8: a timed-out primary download is answered with the
timeout error and no fallback attempt. -/
theorem download_timeout_skips_fallback_witness :
    (download_video ProcOutcome.ok ProcOutcome.timedOut FallbackOutcome.raised
        true).1 = downloadTimeoutResponse
    ∧ (download_video ProcOutcome.ok ProcOutcome.timedOut FallbackOutcome.raised
        true).2 = false :=
  ⟨(download_timeout_skips_fallback ProcOutcome.ok ProcOutcome.timedOut
      FallbackOutcome.raised true (Or.inr rfl)).1,
   (download_timeout_skips_fallback ProcOutcome.ok ProcOutcome.timedOut
      FallbackOutcome.raised true (Or.inr rfl)).2.1⟩

/-- A bot signature found in the truncated error text is also found in
the untruncated stderr (with the empty-stderr placeholder), so the
`except` branch of the fallback keeps the original stderr. -/
theorem hasBotSignature_untruncated (stderr : Str)
    (h : hasBotSignature (finalErrorMsg stderr) = true) :
    hasBotSignature (if stderr = [] then "Unknown error".toList else stderr)
      = true := by
  by_cases he : stderr = []
  · rw [he] at h
    exact absurd h (by decide)
  · rw [if_neg he]
    unfold hasBotSignature finalErrorMsg at h
    unfold hasBotSignature
    rw [if_neg he] at h
    simp only [Bool.or_eq_true, decide_eq_true_eq] at h ⊢
    rcases h with h | h
    · exact Or.inl (h.trans (List.take_prefix 500 stderr).isInfix)
    · refine Or.inr ?_
      rw [List.map_take] at h
      exact h.trans (List.take_prefix 500 (stderr.map Char.toLower)).isInfix

/-- C9 (amended): when the primary tool exits non-zero and the final
error text — stderr truncated to its first 500 characters — carries a
bot-detection signature (`Sign in to confirm`, or `bot` after
lowercasing), and the fallback fails to produce the expected file
(either without raising or by raising), the reply is HTTP 429 and carries
`error`, `suggestion`, `technical_error` and `help_link`. -/
theorem download_bot_detection_429 (stderr : Str) (probe : ProcOutcome)
    (fb : FallbackOutcome) (fileFound : Bool)
    (hp : probe ≠ ProcOutcome.timedOut)
    (hfb : fb ≠ FallbackOutcome.producedFile)
    (hsig : hasBotSignature (finalErrorMsg stderr) = true) :
    (download_video probe (ProcOutcome.fail stderr) fb fileFound).1.status = 429
    ∧ (download_video probe (ProcOutcome.fail stderr) fb fileFound).1.error.isSome
    ∧ (download_video probe (ProcOutcome.fail stderr) fb
        fileFound).1.suggestion.isSome
    ∧ (download_video probe (ProcOutcome.fail stderr) fb
        fileFound).1.technical_error.isSome
    ∧ (download_video probe (ProcOutcome.fail stderr) fb
        fileFound).1.help_link.isSome := by
  have h2 := hasBotSignature_untruncated stderr hsig
  have hres : (download_video probe (ProcOutcome.fail stderr) fb fileFound).1 =
      classify_download_error stderr := by
    cases probe with
    | timedOut => exact absurd rfl hp
    | ok =>
      cases fb with
      | producedFile => exact absurd rfl hfb
      | noStream => rfl
      | raised =>
        simp only [download_video]
        rw [if_pos h2]
    | fail s =>
      cases fb with
      | producedFile => exact absurd rfl hfb
      | noStream => rfl
      | raised =>
        simp only [download_video]
        rw [if_pos h2]
  rw [hres]
  simp [classify_download_error, hsig]

/-- Witness for the amended C9: a short bot-detection stderr with a
raising fallback yields 429 and a `help_link`. -/
theorem download_bot_detection_429_witness :
    (download_video ProcOutcome.ok
        (ProcOutcome.fail "Sign in to confirm you are not a bot".toList)
        FallbackOutcome.raised false).1.status = 429
    ∧ (download_video ProcOutcome.ok
        (ProcOutcome.fail "Sign in to confirm you are not a bot".toList)
        FallbackOutcome.raised false).1.help_link.isSome :=
  ⟨(download_bot_detection_429 "Sign in to confirm you are not a bot".toList
      ProcOutcome.ok FallbackOutcome.raised false (by decide) (by decide)
      (by decide)).1,
   (download_bot_detection_429 "Sign in to confirm you are not a bot".toList
      ProcOutcome.ok FallbackOutcome.raised false (by decide) (by decide)
      (by decide)).2.2.2.2⟩

/-- A primary stderr of 500 filler characters followed by `bot`: the
signature lies entirely beyond the 500-character truncation point. -/
def longBotStderr : Str := List.replicate 500 'x' ++ "bot".toList

set_option maxRecDepth 8000 in
/-- Counterexample to C9 as stated: this stderr does contain the
case-insensitive `bot` signature and the fallback fails to produce the
file, yet the reply is a generic 500 without `help_link` or
`suggestion`, because line 581 re-reads only `result.stderr[:500]` and
the signature lies beyond the first 500 characters. -/
theorem download_bot_detection_429_counterexample :
    hasBotSignature longBotStderr = true
    ∧ (download_video ProcOutcome.ok (ProcOutcome.fail longBotStderr)
        FallbackOutcome.noStream true).1.status = 500
    ∧ (download_video ProcOutcome.ok (ProcOutcome.fail longBotStderr)
        FallbackOutcome.noStream true).1.help_link = none
    ∧ (download_video ProcOutcome.ok (ProcOutcome.fail longBotStderr)
        FallbackOutcome.noStream true).1.suggestion = none := by
  decide
